import Mathlib

/-!
Verification of `src/model/decoder.py` (im2latex attention decoder).

The file shallowly embeds the graph-construction code of `Decoder.__init__`
and `Decoder.__call__`, the helper `get_embeddings`, and the row-normalizing
`embedding_initializer`, together with models of the unroll drivers that the
module imports from `components/` (those files are not part of the sources;
they are modelled from the specification and marked as such).

Python failures that happen while the graph is being built (NameError for an
unbound global, UnboundLocalError for a local read before assignment, and the
ValueError that `tf.get_variable` raises on a variable-scope misuse) are
modelled with an explicit error type and `Except`.
-/

set_option autoImplicit false

/-- Errors that Python / TensorFlow can raise during graph construction. -/
inductive PyError where
  /-- Python NameError: a free name with no binding was read. -/
  | nameError (n : String)
  /-- Python UnboundLocalError: a local variable was read before assignment. -/
  | unboundLocal (n : String)
  /-- A descriptive configuration error (e.g. the ValueError raised by
  `tf.get_variable` on scope misuse, or an explicit configuration check). -/
  | configError (msg : String)
deriving DecidableEq, Repr

/-- True exactly on the `configError` constructor. -/
def PyError.isConfigError : PyError → Bool
  | .configError _ => true
  | _ => false

/-- Symbolic initial value of a graph variable. -/
inductive TensorVal where
  /-- Result of `embedding_initializer()` at the given shape. -/
  | embeddingInit (shape : List Nat)
  /-- Learned parameter of one of the imported components. -/
  | componentInit (tag : String)
deriving DecidableEq, Repr

/-- A TensorFlow variable: its fully scoped name and its initial value.
`tf.get_variable` with `reuse=True` returns the stored variable itself, so
two cells that hold equal `TFVar`s alias the same parameter. -/
structure TFVar where
  name : String
  val : TensorVal
deriving DecidableEq, Repr

/-- The variable store of the graph under construction. -/
abbrev VarStore := List TFVar

/-- `tf.get_variable`: with `reuse=False` a fresh variable is created (error
if the scoped name exists); with `reuse=True` the existing variable is
returned (error if it does not exist). -/
def getVariable (store : VarStore) (reuse : Bool) (name : String) (init : TensorVal) :
    Except PyError (TFVar × VarStore) :=
  match store.find? (fun v => v.name == name) with
  | some v =>
      if reuse then .ok (v, store)
      else .error (.configError name)
  | none =>
      if reuse then .error (.configError name)
      else .ok (⟨name, init⟩, ⟨name, init⟩ :: store)

/-- `tf.get_variable` for a list of component parameters inside a variable
scope; names are scoped with `scope ++ "/"`. -/
def getVariables (store : VarStore) (scope : String) (reuse : Bool) (names : List String) :
    Except PyError (List TFVar × VarStore) :=
  match names with
  | [] => .ok ([], store)
  | n :: ns =>
      match getVariable store reuse (scope ++ "/" ++ n) (.componentInit n) with
      | .error e => .error e
      | .ok (v, store1) =>
          match getVariables store1 scope reuse ns with
          | .error e => .error e
          | .ok (vs, store2) => .ok (v :: vs, store2)

/-- Configuration dictionary `attn_cell_config`.  `decoder.py` reads only
`dim_embeddings`, `dim_e` and `num_units`; the `cell_type` field models the
recurrent-cell-type entry that the specification mentions (the dictionary may
carry it, but the decoder never reads it). -/
structure AttnCellConfig where
  dim_embeddings : Nat
  dim_e : Nat
  num_units : Nat
  cell_type : String
deriving DecidableEq, Repr

/-- The decoder configuration object. -/
structure Config where
  decoding : String
  beam_size : Nat
  div_gamma : ℚ
  div_prob : ℚ
  max_length_formula : Nat
  beam_search_optimization : Bool
  attn_cell_config : AttnCellConfig
deriving DecidableEq, Repr

/-- Encoded image; only its batch dimension (`tf.shape(img)[0]`) is read by
the decoder module, the feature content is consumed by the components. -/
structure Img where
  batch : Nat
deriving DecidableEq, Repr

/-- Modelled from the spec: the AttentionMechanism projects the feature grid
and the hidden state into a shared space and scores the locations with a
learned vector; its learned parameters are created with `tf.get_variable`
inside the enclosing variable scope. -/
def attn_meca_var_names : List String := ["att_img_w", "att_h_w", "att_beta"]

/-- Modelled from the spec: the AttentionCell owns the base recurrent cell's
kernel, the learned output projection and the logits projection, all created
with `tf.get_variable` inside the enclosing variable scope. -/
def attn_cell_var_names : List String := ["lstm_kernel", "o_w", "logits_w"]

/-- Graph object built by `AttentionMechanism(img, dim_e, tiles)`.  `tiles`
is `none` when the constructor is called without a tiling argument (training
unroll, line 56) and `some t` when `tiles=t` is passed (decode unroll,
line 70). -/
structure AttentionMechanism where
  img : Img
  dim_e : Nat
  tiles : Option Nat
  params : List TFVar
deriving DecidableEq, Repr

/-- Tagged variant for the base recurrent cell, mirroring the classes
imported on line 5 of the source (`GRUCell`, `LSTMCell`). -/
inductive RecurrentCell where
  | GRUCell (num_units : Nat)
  | LSTMCell (num_units : Nat) (reuse : Bool)
deriving DecidableEq, Repr

/-- True exactly on the `GRUCell` constructor. -/
def RecurrentCell.isGRU : RecurrentCell → Bool
  | .GRUCell _ => true
  | .LSTMCell _ _ => false

/-- Graph object built by
`AttentionCell(recu_cell, attn_meca, dropout, attn_cell_config, n_tok)`. -/
structure AttentionCell where
  recu_cell : RecurrentCell
  attn_meca : AttentionMechanism
  dropout : ℚ
  config : AttnCellConfig
  n_tok : Nat
  params : List TFVar
deriving DecidableEq, Repr

/-- Graph object built by `GreedyDecoderCell(...)` or
`BeamSearchDecoderCell(...)` (lines 76-81). -/
inductive DecoderCell where
  | greedyDC (E : TFVar) (attn_cell : AttentionCell) (batch_size : Nat)
      (start_token : TFVar) (id_end : Nat)
  | beamDC (E : TFVar) (attn_cell : AttentionCell) (batch_size : Nat)
      (start_token : TFVar) (id_end : Nat) (beam_size : Nat)
      (div_gamma : ℚ) (div_prob : ℚ)
deriving DecidableEq, Repr

/-- Graph node for `tf.nn.dynamic_rnn(attn_cell, embeddings[:, :-1, :], ...)`
(line 62). -/
structure RnnNode where
  cell : AttentionCell
deriving DecidableEq, Repr

/-- Graph node for the BSO unroll (lines 83-87). -/
structure BsoNode where
  cell : DecoderCell
  formula : List (List Nat)
deriving DecidableEq, Repr

/-- Graph node for `dynamic_decode(decoder_cell, max_length_formula+1)`
(lines 89-90): the adaptive driver runs the decoder cell for at most
`max_steps` steps. -/
structure PredNode where
  cell : DecoderCell
  max_steps : Nat
deriving DecidableEq, Repr

/-- The `decoder_output` dictionary returned by `Decoder.__call__`. -/
structure DecoderOutput where
  train : Option RnnNode
  bso : Option BsoNode
  pred : Option PredNode
deriving DecidableEq, Repr

/-- The `Decoder` object after `__init__` (lines 20-24). -/
structure Decoder where
  config : Config
  n_tok : Nat
  id_end : Nat
  tiles : Nat
deriving DecidableEq, Repr

/-- `Decoder.__init__(config, n_tok, id_end)` (lines 20-24):
`self._tiles = 1 if config.decoding == "greedy" else config.beam_size`. -/
def Decoder.init (config : Config) (n_tok : Nat) (id_end : Nat) : Decoder :=
  { config := config, n_tok := n_tok, id_end := id_end,
    tiles := if config.decoding = "greedy" then 1 else config.beam_size }

/-- Everything `Decoder.__call__` builds up to the end of the second
`variable_scope` block (lines 42-74), before the decoding branch. -/
structure BuiltCells where
  E : TFVar
  start_token : TFVar
  batch_size : Nat
  train_meca : AttentionMechanism
  train_cell : AttentionCell
  dec_meca : AttentionMechanism
  dec_cell : AttentionCell
  store : VarStore
deriving DecidableEq, Repr

/-- `AttentionMechanism(...)` constructor: records its arguments and creates
its parameters in the scope (see `attn_meca_var_names`). -/
def buildAttnMechanism (store : VarStore) (reuse : Bool) (img : Img) (dim_e : Nat)
    (tiles : Option Nat) : Except PyError (AttentionMechanism × VarStore) :=
  match getVariables store "attn_cell" reuse attn_meca_var_names with
  | .error e => .error e
  | .ok (ps, store1) =>
      .ok ({ img := img, dim_e := dim_e, tiles := tiles, params := ps }, store1)

/-- `AttentionCell(...)` constructor: records its arguments and creates its
parameters in the scope (see `attn_cell_var_names`). -/
def buildAttnCell (store : VarStore) (reuse : Bool) (recu : RecurrentCell)
    (meca : AttentionMechanism) (dropout : ℚ) (cfg : AttnCellConfig) (n_tok : Nat) :
    Except PyError (AttentionCell × VarStore) :=
  match getVariables store "attn_cell" reuse attn_cell_var_names with
  | .error e => .error e
  | .ok (ps, store1) =>
      .ok ({ recu_cell := recu, attn_meca := meca, dropout := dropout,
             config := cfg, n_tok := n_tok, params := ps }, store1)

/-- Lines 42-74 of `Decoder.__call__`: create `E` and `start_token`, then the
training-scope AttentionMechanism/AttentionCell (`reuse=False`, lines 53-60)
and the decode-scope ones (`reuse=True`, lines 67-74).  Both scopes use the
name `"attn_cell"`; the recurrent cell is an `LSTMCell(num_units)` in both
(lines 58 and 71-72). -/
def Decoder.buildCells (d : Decoder) (img : Img) (dropout : ℚ) :
    Except PyError BuiltCells := do
  let dim := d.config.attn_cell_config.dim_embeddings
  let (eVar, st) ← getVariable [] false "E" (.embeddingInit [d.n_tok, dim])
  let (stok, st) ← getVariable st false "start_token" (.embeddingInit [dim])
  let (tm, st) ← buildAttnMechanism st false img d.config.attn_cell_config.dim_e none
  let (tc, st) ← buildAttnCell st false
      (RecurrentCell.LSTMCell d.config.attn_cell_config.num_units false)
      tm dropout d.config.attn_cell_config d.n_tok
  let (dm, st) ← buildAttnMechanism st true img d.config.attn_cell_config.dim_e (some d.tiles)
  let (dc, st) ← buildAttnCell st true
      (RecurrentCell.LSTMCell d.config.attn_cell_config.num_units true)
      dm dropout d.config.attn_cell_config d.n_tok
  pure { E := eVar, start_token := stok, batch_size := img.batch,
         train_meca := tm, train_cell := tc, dec_meca := dm, dec_cell := dc,
         store := st }

/-- `Decoder.__call__(training, img, formula, dropout)` (lines 27-93).
Note on the greedy branch: line 77 passes the bare name `id_end` to
`GreedyDecoderCell`; `__call__` has no local, enclosing, global or builtin
binding for `id_end` (the attribute is `self._id_end`), so Python raises a
`NameError` there.  With an unrecognized decoding mode no branch assigns
`decoder_cell`, and line 89 raises `UnboundLocalError`. -/
def Decoder.call (d : Decoder) (training : Bool) (img : Img)
    (formula : List (List Nat)) (dropout : ℚ) : Except PyError DecoderOutput :=
  match d.buildCells img dropout with
  | .error e => .error e
  | .ok b =>
      if d.config.decoding = "greedy" then
        .error (.nameError "id_end")
      else if d.config.decoding = "beam_search" then
        let dcell := DecoderCell.beamDC b.E b.dec_cell b.batch_size b.start_token
          d.id_end d.config.beam_size d.config.div_gamma d.config.div_prob
        .ok { train := some { cell := b.train_cell },
              bso := if d.config.beam_search_optimization then
                       some { cell := dcell, formula := formula }
                     else none,
              pred := some { cell := dcell,
                             max_steps := d.config.max_length_formula + 1 } }
      else
        .error (.unboundLocal "decoder_cell")

/-- The value `Decoder.buildCells` computes: variable creation on the empty
store always succeeds, reuse finds the variables created by the training
scope. -/
def builtCellsVal (d : Decoder) (img : Img) (dropout : ℚ) : BuiltCells :=
  let dim := d.config.attn_cell_config.dim_embeddings
  let eVar : TFVar := ⟨"E", .embeddingInit [d.n_tok, dim]⟩
  let stok : TFVar := ⟨"start_token", .embeddingInit [dim]⟩
  let m1 : TFVar := ⟨"attn_cell/att_img_w", .componentInit "att_img_w"⟩
  let m2 : TFVar := ⟨"attn_cell/att_h_w", .componentInit "att_h_w"⟩
  let m3 : TFVar := ⟨"attn_cell/att_beta", .componentInit "att_beta"⟩
  let c1 : TFVar := ⟨"attn_cell/lstm_kernel", .componentInit "lstm_kernel"⟩
  let c2 : TFVar := ⟨"attn_cell/o_w", .componentInit "o_w"⟩
  let c3 : TFVar := ⟨"attn_cell/logits_w", .componentInit "logits_w"⟩
  let tm : AttentionMechanism :=
    { img := img, dim_e := d.config.attn_cell_config.dim_e, tiles := none,
      params := [m1, m2, m3] }
  let dm : AttentionMechanism :=
    { img := img, dim_e := d.config.attn_cell_config.dim_e, tiles := some d.tiles,
      params := [m1, m2, m3] }
  { E := eVar, start_token := stok, batch_size := img.batch,
    train_meca := tm,
    train_cell :=
      { recu_cell := RecurrentCell.LSTMCell d.config.attn_cell_config.num_units false,
        attn_meca := tm, dropout := dropout, config := d.config.attn_cell_config,
        n_tok := d.n_tok, params := [c1, c2, c3] },
    dec_meca := dm,
    dec_cell :=
      { recu_cell := RecurrentCell.LSTMCell d.config.attn_cell_config.num_units true,
        attn_meca := dm, dropout := dropout, config := d.config.attn_cell_config,
        n_tok := d.n_tok, params := [c1, c2, c3] },
    store := [c3, c2, c1, m3, m2, m1, stok, eVar] }

/-- Modelled from the spec: the fixed-length driver (`tf.nn.dynamic_rnn`,
`components/dynamic_rnn.py`) applies the cell exactly once per input,
threading the state, and accumulates the per-step outputs in order. -/
def dynamic_rnn {σ α β : Type} (step : σ → α → β × σ) (s : σ) :
    List α → List β × σ
  | [] => ([], s)
  | x :: xs =>
      let r := step s x
      let rest := dynamic_rnn step r.2 xs
      (r.1 :: rest.1, rest.2)

/-- Modelled from the spec: the adaptive driver
(`components/dynamic_decode.py`) applies the cell repeatedly until every
sample's done flag is set or the hard step cap is reached, accumulating the
per-step outputs. -/
def dynamic_decode {σ β : Type} (step : σ → β × σ) (done : σ → Bool) :
    Nat → σ → List β
  | 0, _ => []
  | Nat.succ n, s =>
      if done s then []
      else
        let r := step s
        r.1 :: dynamic_decode step done n r.2

/-- `get_embeddings(formula, E, dim, start_token, batch_size)`
(lines 96-116): look the formula tokens up in `E`
(`tf.nn.embedding_lookup`), tile the start token over the batch, and
concatenate along the time axis.  The row of `E` for token `t` is modelled
with `E.getD t []`; the unused `dim` argument is kept from the source, where
it only feeds the reshape of the start token. -/
def get_embeddings (formula : List (List Nat)) (E : List (List ℚ)) (dim : Nat)
    (start_token : List ℚ) (batch_size : Nat) : List (List (List ℚ)) :=
  List.zipWith (fun a b => a ++ b) (List.replicate batch_size [start_token])
    (formula.map (fun row => row.map (fun t => E.getD t [])))

/-- Sum of squares of a vector: the square of its L2 norm. -/
noncomputable def sumSq : List ℝ → ℝ
  | [] => 0
  | x :: xs => x ^ 2 + sumSq xs

/-- `tf.nn.l2_normalize(v, -1)` in exact real arithmetic: divide each entry
by the L2 norm of the row. -/
noncomputable def l2_normalize (v : List ℝ) : List ℝ :=
  v.map (fun x => x / Real.sqrt (sumSq v))

/-- `embedding_initializer` (lines 119-126): draw a uniform random tensor in
`[-1, 1]` and L2-normalize it along its last dimension.  The random draw is
modelled by the argument `rows` (for the 1-dimensional `start_token` the
tensor is a single row). -/
noncomputable def embedding_init (rows : List (List ℝ)) : List (List ℝ) :=
  rows.map l2_normalize

/-- A concrete `attn_cell_config` for concrete evaluations. -/
def attnCfgA : AttnCellConfig :=
  { dim_embeddings := 80, dim_e := 100, num_units := 11, cell_type := "lstm" }

/-- A concrete `attn_cell_config` selecting a GRU base cell. -/
def attnCfgGru : AttnCellConfig :=
  { dim_embeddings := 80, dim_e := 100, num_units := 11, cell_type := "gru" }

/-- A concrete beam-search configuration. -/
def cfgBeam : Config :=
  { decoding := "beam_search", beam_size := 3, div_gamma := 1, div_prob := 1/2,
    max_length_formula := 5, beam_search_optimization := false,
    attn_cell_config := attnCfgA }

/-- `cfgBeam` with beam-search optimization enabled. -/
def cfgBeamBso : Config := { cfgBeam with beam_search_optimization := true }

/-- A concrete greedy configuration. -/
def cfgGreedy : Config := { cfgBeam with decoding := "greedy" }

/-- A concrete configuration with an unrecognized decoding mode. -/
def cfgUnknown : Config := { cfgBeam with decoding := "sampling" }

/-- A concrete configuration whose `attn_cell_config` selects a GRU. -/
def cfgGru : Config := { cfgBeam with attn_cell_config := attnCfgGru }

/-- A concrete recurrent step with 3 logits per step, for concrete unrolls. -/
def stepA : Nat → List ℚ → List ℚ × Nat := fun s x => ([7, 7, 7], s + 1)

/-- A concrete decoder-cell step for the adaptive driver. -/
def stepW : Nat → List ℚ × Nat := fun s => ([3], s + 1)

/-- A done flag that is never set, so only the step cap stops the driver. -/
def doneW : Nat → Bool := fun s => false

theorem buildCells_eq (d : Decoder) (img : Img) (dropout : ℚ) :
    d.buildCells img dropout = .ok (builtCellsVal d img dropout) := rfl

theorem call_eq (d : Decoder) (t : Bool) (img : Img) (formula : List (List Nat))
    (dropout : ℚ) :
    d.call t img formula dropout =
      if d.config.decoding = "greedy" then .error (.nameError "id_end")
      else if d.config.decoding = "beam_search" then
        let b := builtCellsVal d img dropout
        let dcell := DecoderCell.beamDC b.E b.dec_cell b.batch_size b.start_token
          d.id_end d.config.beam_size d.config.div_gamma d.config.div_prob
        .ok { train := some { cell := b.train_cell },
              bso := if d.config.beam_search_optimization then
                       some { cell := dcell, formula := formula }
                     else none,
              pred := some { cell := dcell,
                             max_steps := d.config.max_length_formula + 1 } }
      else .error (.unboundLocal "decoder_cell") := rfl

theorem dynamic_decode_length_le {σ β : Type} (step : σ → β × σ) (done : σ → Bool) :
    ∀ (fuel : Nat) (s : σ), (dynamic_decode step done fuel s).length ≤ fuel := by
  intro fuel
  induction fuel with
  | zero => intro s; simp [dynamic_decode]
  | succ n ih =>
      intro s
      by_cases h : done s = true
      · simp [dynamic_decode, h]
      · simp only [dynamic_decode, h, if_neg, Bool.not_eq_true, List.length_cons]
        exact Nat.succ_le_succ (ih _)

theorem dynamic_rnn_length {σ α β : Type} (step : σ → α → β × σ) :
    ∀ (xs : List α) (s : σ), ((dynamic_rnn step s xs).1).length = xs.length := by
  intro xs
  induction xs with
  | nil => intro s; simp [dynamic_rnn]
  | cons x xs ih => intro s; simp [dynamic_rnn, ih]

theorem dynamic_rnn_mem_length {σ α β : Type} (step : σ → α → List β × σ) (n : Nat)
    (hstep : ∀ s x, ((step s x).1).length = n) :
    ∀ (xs : List α) (s : σ) (y : List β), y ∈ (dynamic_rnn step s xs).1 → y.length = n := by
  intro xs
  induction xs with
  | nil => intro s y hy; simp [dynamic_rnn] at hy
  | cons x xs ih =>
      intro s y hy
      simp only [dynamic_rnn, List.mem_cons] at hy
      rcases hy with hy | hy
      · subst hy; exact hstep _ _
      · exact ih _ _ hy

theorem getD_map_of_lt {α β : Type} (f : α → β) (l : List α) (da : α) (db : β) :
    ∀ (i : Nat), i < l.length → (l.map f).getD i db = f (l.getD i da) := by
  induction l with
  | nil => intro i hi; simp at hi
  | cons x xs ih =>
      intro i hi
      cases i with
      | zero => rfl
      | succ i =>
          simp only [List.map_cons, List.getD_cons_succ]
          exact ih i (by simpa using hi)

theorem get_embeddings_getD (formula : List (List Nat)) (E : List (List ℚ))
    (dim : Nat) (start_token : List ℚ) :
    ∀ (k : Nat), k < formula.length →
      (get_embeddings formula E dim start_token formula.length).getD k [] =
        start_token :: (formula.getD k []).map (fun t => E.getD t []) := by
  induction formula with
  | nil => intro k hk; simp at hk
  | cons r rs ih =>
      intro k hk
      cases k with
      | zero => rfl
      | succ k =>
          have hk' : k < rs.length := by simpa using hk
          simpa [get_embeddings, List.replicate_succ, List.zipWith_cons_cons,
            List.getD_cons_succ] using ih k hk'

theorem get_embeddings_length (formula : List (List Nat)) (E : List (List ℚ))
    (dim : Nat) (start_token : List ℚ) :
    (get_embeddings formula E dim start_token formula.length).length =
      formula.length := by
  simp [get_embeddings]

theorem sumSq_map_div (c : ℝ) :
    ∀ v : List ℝ, sumSq (v.map (fun x => x / c)) = sumSq v / c ^ 2 := by
  intro v
  induction v with
  | nil => simp [sumSq]
  | cons x xs ih => simp [sumSq, ih, div_pow, add_div]

theorem sumSq_l2_normalize (v : List ℝ) (hpos : 0 < sumSq v) :
    sumSq (l2_normalize v) = 1 := by
  unfold l2_normalize
  rw [sumSq_map_div, Real.sq_sqrt hpos.le]
  exact div_self hpos.ne'

/-- Claim C1: the claim says a greedy configuration succeeds at
graph-construction time and builds a `GreedyDecoderCell` with the decoder's
configured `id_end`.  The code instead reads the unbound name `id_end` on
line 77 (the attribute is `self._id_end`), so every greedy call raises a
Python `NameError` while constructing the graph.  This theorem evaluates the
embedded call at a concrete greedy configuration. -/
theorem greedy_call_raises_name_error :
    (Decoder.init cfgGreedy 7 6).call true ⟨2⟩ [[0, 1]] 0 =
      .error (.nameError "id_end") := rfl

/-- Claim C2 (counterexample): with the unrecognized decoding mode
`"sampling"`, the call fails with `UnboundLocalError` on the local
`decoder_cell` (no branch of lines 75-88 assigned it), which is not a
descriptive configuration error. -/
theorem unknown_mode_not_config_error :
    (Decoder.init cfgUnknown 5 4).call true ⟨2⟩ [[0]] 0 =
        .error (.unboundLocal "decoder_cell") ∧
      (PyError.unboundLocal "decoder_cell").isConfigError = false :=
  ⟨rfl, rfl⟩

/-- Claim C2 (amended): for every configuration whose decoding mode is
neither `"greedy"` nor `"beam_search"`, calling the Decoder fails fast at
graph-construction time, but with an `UnboundLocalError` on the variable
`decoder_cell` rather than a descriptive configuration error. -/
theorem unknown_mode_unbound_local (cfg : Config) (n id : Nat) (t : Bool)
    (img : Img) (formula : List (List Nat)) (dropout : ℚ)
    (h1 : cfg.decoding ≠ "greedy") (h2 : cfg.decoding ≠ "beam_search") :
    (Decoder.init cfg n id).call t img formula dropout =
      .error (.unboundLocal "decoder_cell") := by
  rw [call_eq]
  simp [Decoder.init, h1, h2]

/-- Claim C2 (witness): the amended theorem at a concrete configuration. -/
theorem unknown_mode_unbound_local_witness :
    (Decoder.init cfgUnknown 9 8).call false ⟨3⟩ [[1]] 0 =
      .error (.unboundLocal "decoder_cell") :=
  unknown_mode_unbound_local cfgUnknown 9 8 false ⟨3⟩ [[1]] 0
    (by decide) (by decide)

/-- Claim C3 (counterexample): with `attn_cell_config` selecting a GRU, both
the training-scope and the decode-scope base recurrent cell are still
`LSTMCell`s (line 58 and lines 71-72 hardcode `LSTMCell`), refuting the
claim that the recurrent-cell-type entry selects GRU semantics. -/
theorem gru_config_builds_lstm :
    ((Decoder.init cfgGru 6 5).buildCells ⟨3⟩ 0).map
        (fun b => b.train_cell.recu_cell.isGRU) = .ok false ∧
      ((Decoder.init cfgGru 6 5).buildCells ⟨3⟩ 0).map
        (fun b => b.dec_cell.recu_cell.isGRU) = .ok false ∧
      cfgGru.attn_cell_config.cell_type = "gru" :=
  ⟨rfl, rfl, rfl⟩

/-- Claim C3 (amended): for every configuration, the base recurrent cell
used inside both AttentionCells is an `LSTMCell(num_units)`; the
recurrent-cell-type entry of `attn_cell_config` is never consulted. -/
theorem base_cell_always_lstm (cfg : Config) (n id : Nat) (img : Img)
    (dropout : ℚ) (b : BuiltCells)
    (h : (Decoder.init cfg n id).buildCells img dropout = .ok b) :
    b.train_cell.recu_cell =
        RecurrentCell.LSTMCell cfg.attn_cell_config.num_units false ∧
      b.dec_cell.recu_cell =
        RecurrentCell.LSTMCell cfg.attn_cell_config.num_units true := by
  rw [buildCells_eq] at h
  injection h with h
  subst h
  exact ⟨rfl, rfl⟩

/-- Claim C3 (witness): the amended theorem at the concrete GRU-selecting
configuration. -/
theorem base_cell_always_lstm_witness :
    (builtCellsVal (Decoder.init cfgGru 6 5) ⟨3⟩ 0).train_cell.recu_cell =
        RecurrentCell.LSTMCell 11 false ∧
      (builtCellsVal (Decoder.init cfgGru 6 5) ⟨3⟩ 0).dec_cell.recu_cell =
        RecurrentCell.LSTMCell 11 true :=
  base_cell_always_lstm cfgGru 6 5 ⟨3⟩ 0 _ rfl

/-- Claim C4: in every call, the AttentionCell built for the training unroll
(scope `"attn_cell"`, `reuse=False`) and the one built for the decode unroll
(same scope, `reuse=True`) hold the identical parameter set: equal cell
parameters and equal attention-mechanism parameters, obtained by reuse from
the variable store rather than fresh creation. -/
theorem attn_cell_params_shared (d : Decoder) (img : Img) (dropout : ℚ)
    (b : BuiltCells) (h : d.buildCells img dropout = .ok b) :
    b.dec_cell.params = b.train_cell.params ∧
      b.dec_meca.params = b.train_meca.params ∧
      b.dec_cell.attn_meca.params = b.train_cell.attn_meca.params := by
  rw [buildCells_eq] at h
  injection h with h
  subst h
  exact ⟨rfl, rfl, rfl⟩

/-- Claim C4 (witness): parameter sharing at a concrete greedy Decoder (both
cells are built on lines 53-74 before the greedy branch fails). -/
theorem attn_cell_params_shared_witness :
    (builtCellsVal (Decoder.init cfgGreedy 7 6) ⟨2⟩ 0).dec_cell.params =
        (builtCellsVal (Decoder.init cfgGreedy 7 6) ⟨2⟩ 0).train_cell.params ∧
      (builtCellsVal (Decoder.init cfgGreedy 7 6) ⟨2⟩ 0).dec_meca.params =
        (builtCellsVal (Decoder.init cfgGreedy 7 6) ⟨2⟩ 0).train_meca.params ∧
      (builtCellsVal (Decoder.init cfgGreedy 7 6) ⟨2⟩ 0).dec_cell.attn_meca.params =
        (builtCellsVal (Decoder.init cfgGreedy 7 6) ⟨2⟩ 0).train_cell.attn_meca.params :=
  attn_cell_params_shared (Decoder.init cfgGreedy 7 6) ⟨2⟩ 0 _ rfl

/-- Claim C5: the decode output of every successful call is a
`dynamic_decode` node with step cap `max_length_formula + 1`, and the
adaptive driver applies the decoder cell at most that many times, so the
decode output never holds more than `max_length_formula + 1` per-step
outputs, whatever the step function and the done flags do. -/
theorem decode_step_cap (d : Decoder) (t : Bool) (img : Img)
    (formula : List (List Nat)) (dropout : ℚ) (out : DecoderOutput)
    (p : PredNode) (h : d.call t img formula dropout = .ok out)
    (hp : out.pred = some p) :
    p.max_steps = d.config.max_length_formula + 1 ∧
      ∀ {σ β : Type} (step : σ → β × σ) (done : σ → Bool) (s : σ),
        (dynamic_decode step done p.max_steps s).length ≤
          d.config.max_length_formula + 1 := by
  rw [call_eq] at h
  by_cases h1 : d.config.decoding = "greedy"
  · rw [if_pos h1] at h
    exact Except.noConfusion h
  · rw [if_neg h1] at h
    by_cases h2 : d.config.decoding = "beam_search"
    · rw [if_pos h2] at h
      injection h with h
      subst h
      injection hp with hp
      subst hp
      refine ⟨rfl, ?_⟩
      intro σ β step done s
      exact dynamic_decode_length_le step done _ s
    · rw [if_neg h2] at h
      exact Except.noConfusion h

/-- Claim C5 (witness): the cap at a concrete beam-search call
(`max_length_formula = 5`), with a driver whose done flag never fires. -/
theorem decode_step_cap_witness :
    (dynamic_decode stepW doneW (5 + 1) 0).length ≤ 5 + 1 :=
  (decode_step_cap (Decoder.init cfgBeam 5 4) true ⟨2⟩ [[0]] 0 _ _ rfl rfl).2
    stepW doneW 0

/-- Claim C6: the training-unroll AttentionMechanism is built without a
tiling argument, while the decode-unroll one receives `self._tiles`, which
is 1 for greedy decoding and `beam_size` for beam search. -/
theorem decode_tiling (cfg : Config) (n id : Nat) (img : Img) (dropout : ℚ)
    (b : BuiltCells)
    (h : (Decoder.init cfg n id).buildCells img dropout = .ok b) :
    b.train_meca.tiles = none ∧
      b.dec_meca.tiles = some (Decoder.init cfg n id).tiles ∧
      (cfg.decoding = "greedy" → b.dec_meca.tiles = some 1) ∧
      (cfg.decoding = "beam_search" → b.dec_meca.tiles = some cfg.beam_size) := by
  rw [buildCells_eq] at h
  injection h with h
  subst h
  refine ⟨rfl, rfl, ?_, ?_⟩
  · intro hg
    show some (if cfg.decoding = "greedy" then 1 else cfg.beam_size) = some 1
    rw [hg, if_pos rfl]
  · intro hb
    show some (if cfg.decoding = "greedy" then 1 else cfg.beam_size) =
      some cfg.beam_size
    rw [hb, if_neg (by decide : ¬("beam_search" = "greedy"))]

/-- Claim C6 (witness): tiling at the concrete beam-search configuration
with `beam_size = 3`. -/
theorem decode_tiling_witness :
    (builtCellsVal (Decoder.init cfgBeam 5 4) ⟨2⟩ 0).train_meca.tiles = none ∧
      (builtCellsVal (Decoder.init cfgBeam 5 4) ⟨2⟩ 0).dec_meca.tiles =
        some (Decoder.init cfgBeam 5 4).tiles ∧
      (cfgBeam.decoding = "greedy" →
        (builtCellsVal (Decoder.init cfgBeam 5 4) ⟨2⟩ 0).dec_meca.tiles = some 1) ∧
      (cfgBeam.decoding = "beam_search" →
        (builtCellsVal (Decoder.init cfgBeam 5 4) ⟨2⟩ 0).dec_meca.tiles =
          some cfgBeam.beam_size) :=
  decode_tiling cfgBeam 5 4 ⟨2⟩ 0 _ rfl

/-- Claim C7: for a formula row of length T, `get_embeddings` keeps the
batch dimension, returns a per-sample sequence of length T+1 whose element 0
is the start token and whose element i+1 is the `E` row of formula token i;
the training unroll then runs the cell on `embeddings[:, :-1, :]` — the
first T inputs (start token followed by the embeddings of the first T-1
tokens) — applying it exactly T times and producing T logit vectors of
length `n_tok` (given that each cell step emits `n_tok` logits). -/
theorem get_embeddings_train_unroll (formula : List (List Nat))
    (E : List (List ℚ)) (dim : Nat) (start_token : List ℚ)
    (k : Nat) (hk : k < formula.length)
    (row : List Nat) (hrow : row = formula.getD k [])
    (seq : List (List ℚ))
    (hseq : seq = (get_embeddings formula E dim start_token formula.length).getD k [])
    {σ : Type} (step : σ → List ℚ → List ℚ × σ) (s0 : σ) (n_tok : Nat)
    (hstep : ∀ s x, ((step s x).1).length = n_tok) :
    (get_embeddings formula E dim start_token formula.length).length =
        formula.length ∧
      seq.length = row.length + 1 ∧
      seq.getD 0 [] = start_token ∧
      (∀ i, i < row.length →
        seq.getD (i + 1) [] = E.getD (row.getD i 0) []) ∧
      seq.dropLast =
        (start_token :: row.map (fun t => E.getD t [])).take row.length ∧
      ((dynamic_rnn step s0 seq.dropLast).1).length = row.length ∧
      (∀ y, y ∈ (dynamic_rnn step s0 seq.dropLast).1 → y.length = n_tok) := by
  subst hrow
  have key : seq =
      start_token :: (formula.getD k []).map (fun t => E.getD t []) := by
    rw [hseq]
    exact get_embeddings_getD formula E dim start_token k hk
  subst key
  refine ⟨get_embeddings_length formula E dim start_token, by simp, rfl, ?_, ?_, ?_, ?_⟩
  · intro i hi
    simp only [List.getD_cons_succ]
    exact getD_map_of_lt (fun t => E.getD t []) _ 0 [] i hi
  · rw [List.dropLast_eq_take]
    simp
  · rw [dynamic_rnn_length]
    simp
  · intro y hy
    exact dynamic_rnn_mem_length step n_tok hstep _ s0 y hy

/-- Claim C7 (witness): concrete formula `[1, 0]` (T = 2) over a two-row
embedding table, with a concrete 3-logit cell step. -/
theorem get_embeddings_train_unroll_witness :
    (get_embeddings [[1, 0]] [[2], [3]] 1 [5] 1).length = 1 ∧
      ([[5], [3], [2]] : List (List ℚ)).length = 3 ∧
      ([[5], [3], [2]] : List (List ℚ)).getD 0 [] = [5] ∧
      (∀ i, i < 2 →
        ([[5], [3], [2]] : List (List ℚ)).getD (i + 1) [] =
          [[2], [3]].getD ([1, 0].getD i 0) []) ∧
      ([[5], [3], [2]] : List (List ℚ)).dropLast =
        (([5] : List ℚ) :: [1, 0].map (fun t => [[2], [3]].getD t [])).take 2 ∧
      ((dynamic_rnn stepA 0 (([[5], [3], [2]] : List (List ℚ)).dropLast)).1).length = 2 ∧
      (∀ y, y ∈ (dynamic_rnn stepA 0 (([[5], [3], [2]] : List (List ℚ)).dropLast)).1 →
        y.length = 3) :=
  get_embeddings_train_unroll [[1, 0]] [[2], [3]] 1 [5] 0 (by decide)
    [1, 0] rfl [[5], [3], [2]] rfl stepA 0 3 (fun s x => rfl)

/-- Claim C8: every row produced by the embedding initializer (a uniform
random draw rescaled by `tf.nn.l2_normalize` along the last dimension) has
L2 norm 1 — its sum of squares is 1 — provided the drawn row is not the
zero vector; the 1-dimensional start-token vector is normalized by the same
`l2_normalize`. -/
theorem embedding_rows_unit_norm (rows : List (List ℝ)) (i : Nat)
    (hi : i < rows.length) (hpos : 0 < sumSq (rows.getD i []))
    (v : List ℝ) (hv : 0 < sumSq v) :
    sumSq ((embedding_init rows).getD i []) = 1 ∧
      sumSq (l2_normalize v) = 1 := by
  constructor
  · have h1 : (embedding_init rows).getD i [] = l2_normalize (rows.getD i []) :=
      getD_map_of_lt l2_normalize rows [] [] i hi
    rw [h1]
    exact sumSq_l2_normalize _ hpos
  · exact sumSq_l2_normalize v hv

/-- Claim C8 (witness): the rows `[3, 4]` and `[8, 6]` normalize to unit
squared norm. -/
theorem embedding_rows_unit_norm_witness :
    sumSq ((embedding_init [[3, 4]]).getD 0 []) = 1 ∧
      sumSq (l2_normalize [8, 6]) = 1 :=
  embedding_rows_unit_norm [[3, 4]] 0 (by decide) (by norm_num [sumSq])
    [8, 6] (by norm_num [sumSq])

/-- Claim C9: whenever the call returns a `decoder_output`, it has a `bso`
entry exactly when the decoding mode is `"beam_search"` and
`beam_search_optimization` is set (stated through `Except.map`, so failed
calls carry no content); and under `"greedy"` decoding the
`beam_search_optimization` flag is silently ignored: flipping it leaves the
call's result unchanged. -/
theorem bso_entry_iff :
    (∀ (d : Decoder) (t : Bool) (img : Img) (formula : List (List Nat))
        (dropout : ℚ),
      (d.call t img formula dropout).map (fun o => o.bso.isSome) =
        (d.call t img formula dropout).map
          (fun o =>
            (d.config.decoding == "beam_search") &&
              d.config.beam_search_optimization)) ∧
    (∀ (cfg : Config) (n id : Nat) (t : Bool) (img : Img)
        (formula : List (List Nat)) (dropout : ℚ),
      cfg.decoding = "greedy" →
      (Decoder.init { cfg with beam_search_optimization := true } n id).call
          t img formula dropout =
        (Decoder.init { cfg with beam_search_optimization := false } n id).call
          t img formula dropout) := by
  constructor
  · intro d t img formula dropout
    rw [call_eq]
    by_cases h1 : d.config.decoding = "greedy"
    · rw [if_pos h1]; rfl
    · rw [if_neg h1]
      by_cases h2 : d.config.decoding = "beam_search"
      · rw [if_pos h2]
        cases hf : d.config.beam_search_optimization <;>
          simp [Except.map, h2, hf]
      · rw [if_neg h2]; rfl
  · intro cfg n id t img formula dropout hg
    rw [call_eq, call_eq]
    simp [Decoder.init, hg]

/-- Claim C9 (witness): flipping `beam_search_optimization` under the
concrete greedy configuration leaves the call unchanged. -/
theorem bso_entry_iff_witness :
    (Decoder.init { cfgGreedy with beam_search_optimization := true } 5 4).call
        true ⟨2⟩ [[0]] 0 =
      (Decoder.init { cfgGreedy with beam_search_optimization := false } 5 4).call
        true ⟨2⟩ [[0]] 0 :=
  bso_entry_iff.2 cfgGreedy 5 4 true ⟨2⟩ [[0]] 0 rfl

/-- Claim C10 (counterexample): the claim also asserts that both the
`"train"` and `"pred"` entries are built in every call; at a concrete greedy
configuration the call raises `NameError` before line 91 and returns no
`decoder_output` at all. -/
theorem greedy_call_returns_no_output :
    (Decoder.init { cfgGreedy with max_length_formula := 9 } 8 7).call
        false ⟨1⟩ [[0]] 0 =
      .error (.nameError "id_end") := rfl

/-- Claim C10 (amended): `Decoder.__call__` never reads its `training`
argument, so for any two values of the flag and otherwise identical inputs
it returns the same result; and in every successful call both the `"train"`
and the `"pred"` entries of the returned `decoder_output` are built (greedy
calls return nothing — they fail with a `NameError`). -/
theorem output_independent_of_training :
    (∀ (d : Decoder) (t1 t2 : Bool) (img : Img) (formula : List (List Nat))
        (dropout : ℚ),
      d.call t1 img formula dropout = d.call t2 img formula dropout) ∧
    (∀ (d : Decoder) (t : Bool) (img : Img) (formula : List (List Nat))
        (dropout : ℚ),
      (d.call t img formula dropout).map
          (fun o => o.train.isSome && o.pred.isSome) =
        (d.call t img formula dropout).map (fun o => true)) := by
  constructor
  · intro d t1 t2 img formula dropout
    rfl
  · intro d t img formula dropout
    rw [call_eq]
    by_cases h1 : d.config.decoding = "greedy"
    · rw [if_pos h1]; rfl
    · rw [if_neg h1]
      by_cases h2 : d.config.decoding = "beam_search"
      · rw [if_pos h2]; rfl
      · rw [if_neg h2]; rfl
